import Mathlib

/-!
Shallow embedding of the ESP32 terminal firmware's connectivity and session
lifecycle manager (`src/esp32-terminal/src/network.cpp`, `protocol.h`,
`config.h` of davejharmon/murderhouse), together with proofs of the
testable properties stated in the specification.

The C++ code is single-threaded: WebSocket events fire only inside
`webSocket.loop()`, which is called only from `networkUpdate` (the tick).
We model the file-scoped static variables as a state record, a tick as a
pure function from state and environment input to state plus the list of
frames handed to `webSocket.sendTXT`, and the event pump as a fold of
`onWebSocketEvent` over the batch of events delivered by that `loop()` call.
-/

/-! ## Constants (config.h) -/

def WS_PORT : Nat := 8080

def DISCOVERY_TIMEOUT_MS : Nat := 3000

def DISCOVERY_MSG : String := "MURDERHOUSE_DISCOVER"

def DISCOVERY_RESP : String := "MURDERHOUSE_SERVER:"

/-! ## Message type tags (protocol.h) -/

namespace ServerMsg

def WELCOME : String := "welcome"

def ERROR : String := "error"

def GAME_STATE : String := "gameState"

def PLAYER_STATE : String := "playerState"

def EVENT_PROMPT : String := "eventPrompt"

end ServerMsg

namespace ClientMsg

def JOIN : String := "join"

def REJOIN : String := "rejoin"

def SELECT_UP : String := "selectUp"

def SELECT_DOWN : String := "selectDown"

def CONFIRM : String := "confirm"

def ABSTAIN : String := "abstain"

def USE_ITEM : String := "useItem"

end ClientMsg

/-! ## Enumerations (protocol.h) -/

inductive LedState where
  | OFF
  | DIM
  | BRIGHT
  | PULSE
deriving DecidableEq

/-- `parseLedState` from protocol.h: unknown strings default to `OFF`. -/
def parseLedState (state : String) : LedState :=
  if state = "dim" then LedState.DIM
  else if state = "bright" then LedState.BRIGHT
  else if state = "pulse" then LedState.PULSE
  else LedState.OFF

inductive DisplayStyle where
  | NORMAL
  | LOCKED
  | ABSTAINED
  | WAITING
deriving DecidableEq

/-- `parseDisplayStyle` from protocol.h: unknown strings default to `NORMAL`. -/
def parseDisplayStyle (style : String) : DisplayStyle :=
  if style = "locked" then DisplayStyle.LOCKED
  else if style = "abstained" then DisplayStyle.ABSTAINED
  else if style = "waiting" then DisplayStyle.WAITING
  else DisplayStyle.NORMAL

/-- The connection phase enum. The copy of protocol.h under `src/` predates
`network.cpp` and omits the `DISCOVERING` member that `network.cpp` and
`display.cpp` use; it is included here in the position the spec's phase
diagram gives it (between WiFi association and the stream connect). -/
inductive ConnectionState where
  | BOOT
  | PLAYER_SELECT
  | WIFI_CONNECTING
  | DISCOVERING
  | WS_CONNECTING
  | JOINING
  | CONNECTED
  | RECONNECTING
  | ERROR
deriving DecidableEq

/-- Modelled from the spec: the `GameLedState` enumeration is declared in the
repository's LED layer but its definition is not under `src/` (only its uses in
`main.cpp`, `leds.h` and `network.cpp` are). The spec gives the domain of
status-LED tags as lobby, day, night, voting, locked, abstained, dead,
gameOver, and the empty string (no game state). -/
inductive GameLedState where
  | NONE
  | LOBBY
  | DAY
  | NIGHT
  | VOTING
  | LOCKED
  | ABSTAINED
  | DEAD
  | GAME_OVER
deriving DecidableEq

/-- Modelled from the spec: `parseGameLedState` is called by `network.cpp` but
its definition is not under `src/`. Per the spec's wire-protocol section each
listed tag maps to its status, and the empty or an unknown string maps to the
no-game-state value. -/
def parseGameLedState (s : String) : GameLedState :=
  if s = "lobby" then GameLedState.LOBBY
  else if s = "day" then GameLedState.DAY
  else if s = "night" then GameLedState.NIGHT
  else if s = "voting" then GameLedState.VOTING
  else if s = "locked" then GameLedState.LOCKED
  else if s = "abstained" then GameLedState.ABSTAINED
  else if s = "dead" then GameLedState.DEAD
  else if s = "gameOver" then GameLedState.GAME_OVER
  else GameLedState.NONE

/-! ## DisplayState (protocol.h, with the `line3.center` and `statusLed`
fields that `network.cpp` and `display.cpp` read and write) -/

structure Line1State where
  left : String
  right : String
deriving DecidableEq

structure Line2State where
  text : String
  style : DisplayStyle
deriving DecidableEq

structure Line3State where
  text : String
  left : String
  center : String
  right : String
deriving DecidableEq

structure LedPairState where
  yes : LedState
  no : LedState
deriving DecidableEq

structure DisplayState where
  line1 : Line1State
  line2 : Line2State
  line3 : Line3State
  leds : LedPairState
  statusLed : GameLedState
deriving DecidableEq

/-- The `DisplayState` default constructor from protocol.h (Arduino `String`
members default-construct to the empty string). -/
def DisplayState.initial : DisplayState :=
  { line1 := { left := "CONNECTING", right := "" }
  , line2 := { text := "...", style := DisplayStyle.NORMAL }
  , line3 := { text := "Please wait", left := "", center := "", right := "" }
  , leds := { yes := LedState.OFF, no := LedState.OFF }
  , statusLed := GameLedState.NONE }

/-! ## A JSON value model for inbound frames (ArduinoJson documents) -/

inductive Json where
  | null
  | boolean (b : Bool)
  | num (n : Int)
  | str (s : String)
  | arr (items : List Json)
  | obj (fields : List (String × Json))

/-- Object member lookup: `doc["k"]` yields the null value when the key is
absent or the receiver is not an object. -/
def Json.get (j : Json) (k : String) : Json :=
  match j with
  | Json.obj fields =>
      match fields.find? (fun p => p.1 == k) with
      | some p => p.2
      | none => Json.null
  | _ => Json.null

/-- `containsKey` from ArduinoJson. -/
def Json.hasKey (j : Json) (k : String) : Bool :=
  match j with
  | Json.obj fields => fields.any (fun p => p.1 == k)
  | _ => false

/-- ArduinoJson's `value | default` for string targets: the stored string when
the value is a string, the default otherwise (absent, null, or wrong type). -/
def Json.strOr (j : Json) (d : String) : String :=
  match j with
  | Json.str s => s
  | _ => d

/-! ## Display payload parsing (network.cpp: parsePlayerState) -/

/-- The field-by-field defaulted construction of a `DisplayState` from the
`display` object of a `playerState` payload (network.cpp lines 364-389). -/
def displayFromJson (display : Json) : DisplayState :=
  let line1 := Json.get display "line1"
  let line2 := Json.get display "line2"
  let line3 := Json.get display "line3"
  let leds := Json.get display "leds"
  { line1 := { left := Json.strOr (Json.get line1 "left") ""
             , right := Json.strOr (Json.get line1 "right") "" }
  , line2 := { text := Json.strOr (Json.get line2 "text") ""
             , style := parseDisplayStyle (Json.strOr (Json.get line2 "style") "normal") }
  , line3 := { text := Json.strOr (Json.get line3 "text") ""
             , left := Json.strOr (Json.get line3 "left") ""
             , center := Json.strOr (Json.get line3 "center") ""
             , right := Json.strOr (Json.get line3 "right") "" }
  , leds := { yes := parseLedState (Json.strOr (Json.get leds "yes") "off")
            , no := parseLedState (Json.strOr (Json.get leds "no") "off") }
  , statusLed := parseGameLedState (Json.strOr (Json.get display "statusLed") "") }

/-- `parsePlayerState` from network.cpp: returns early (no update) when the
payload has no `display` member, otherwise produces the new display state. -/
def parsePlayerState (payload : Json) : Option DisplayState :=
  if Json.hasKey payload "display" then
    some (displayFromJson (Json.get payload "display"))
  else none

/-! ## WebSocket events and outbound frames -/

/-- The `WStype_t` events that `onWebSocketEvent` dispatches on. A text frame
is carried as its parsed JSON document (frames that fail `deserializeJson` or
lack a string `type` member are modelled by documents on which the dispatch
falls through and discards, exactly as the code does). -/
inductive WsEvent where
  | disconnected
  | connected
  | text (frame : Json)
  | bin
  | errorEvent
  | ping
  | pong

/-- An outbound frame as built by `sendMessage`: the envelope type tag and the
payload's key/value members in insertion order (an absent payload argument
becomes the empty object, hence the empty list). -/
structure OutMsg where
  type : String
  payload : List (String × String)
deriving DecidableEq

/-- `sendMessage` from network.cpp builds `{"type": type, "payload": ...}` and
hands it to `webSocket.sendTXT`. We record the frame it emits. -/
def sendMessage (type : String) (payload : List (String × String)) : OutMsg :=
  { type := type, payload := payload }

/-! ## The session state (the file-scoped statics of network.cpp) -/

structure NetState where
  connState : ConnectionState
  wsConnected : Bool
  gameJoined : Bool
  serverHost : String
  serverPort : Nat
  lastError : String
  playerId : String
  lastDiscoveryBroadcast : Nat
  currentDisplayState : DisplayState
deriving DecidableEq

/-- The initial values of the statics: `connState = BOOT`, `serverHost` empty,
`serverPort = WS_PORT`, `playerId` defaulting to `"1"`. -/
def initialState : NetState :=
  { connState := ConnectionState.BOOT
  , wsConnected := false
  , gameJoined := false
  , serverHost := ""
  , serverPort := WS_PORT
  , lastError := ""
  , playerId := "1"
  , lastDiscoveryBroadcast := 0
  , currentDisplayState := DisplayState.initial }

/-- `strncpy(lastError, msg, sizeof(lastError) - 1)` into the 128-byte buffer
followed by forced null termination keeps the first 127 characters. -/
def truncErr (m : String) : String := String.mk (m.toList.take 127)

/-- The `WStype_TEXT` branch of `onWebSocketEvent` (network.cpp lines
287-337): dispatch on the frame's `type` member; `welcome` sets `gameJoined`;
`error` records the message (defaulted to "Unknown error") and moves a
`JOINING` session to `ERROR`; `playerState` replaces the display state;
`gameState`, `eventPrompt` and unrecognized types only log. -/
def handleTextFrame (s : NetState) (frame : Json) : NetState :=
  match Json.get frame "type" with
  | Json.str msgType =>
      let msgPayload := Json.get frame "payload"
      if msgType = ServerMsg.WELCOME then { s with gameJoined := true }
      else if msgType = ServerMsg.ERROR then
        let errText := truncErr (Json.strOr (Json.get msgPayload "message") "Unknown error")
        if s.connState = ConnectionState.JOINING then
          { s with lastError := errText, connState := ConnectionState.ERROR }
        else { s with lastError := errText }
      else if msgType = ServerMsg.PLAYER_STATE then
        match parsePlayerState msgPayload with
        | some d => { s with currentDisplayState := d }
        | none => s
      else s
  | _ => s

/-- `onWebSocketEvent` from network.cpp: disconnect clears both connection
flags, connect sets `wsConnected`, text frames dispatch, and binary, error,
ping and pong events only log. -/
def onWebSocketEvent (s : NetState) (ev : WsEvent) : NetState :=
  match ev with
  | WsEvent.disconnected => { s with wsConnected := false, gameJoined := false }
  | WsEvent.connected => { s with wsConnected := true }
  | WsEvent.text frame => handleTextFrame s frame
  | WsEvent.bin => s
  | WsEvent.errorEvent => s
  | WsEvent.ping => s
  | WsEvent.pong => s

/-- One `webSocket.loop()` call: the library fires its pending events through
`onWebSocketEvent` in order. -/
def wsLoop (s : NetState) (evts : List WsEvent) : NetState :=
  evts.foldl onWebSocketEvent s

/-- Well-formedness of the event batch one `webSocket.loop()` call can
deliver, as guaranteed by the transport library: data and disconnect events
only arrive while the stream reports connected, a connect event only while it
reports disconnected, and a disconnect ends the batch (after a drop the
library waits out the reconnect interval, which spans ticks, before it can
connect again — so no reconnect happens inside the same pump call). -/
def wfBatch : Bool → List WsEvent → Bool
  | _, [] => true
  | ws, WsEvent.connected :: r => !ws && wfBatch true r
  | ws, WsEvent.disconnected :: r => ws && r.isEmpty
  | ws, WsEvent.text _ :: r => ws && wfBatch ws r
  | ws, _ :: r => wfBatch ws r

/-! ## Discovery datagram parsing (network.cpp lines 104-134) -/

/-- The digit-accumulating loop of C `atoi`: consume leading decimal digits,
stop at the first non-digit. -/
def atoiDigits : List Char → Nat → Nat
  | [], acc => acc
  | c :: r, acc =>
      if c.isDigit then atoiDigits r (10 * acc + (c.toNat - '0'.toNat)) else acc

/-- C `atoi` on the datagram tail: skip leading whitespace, an optional sign,
then decimal digits; no digits parse to 0. (Overflow past `int` is undefined
behaviour in C; the theorems below only evaluate it on values that fit.) -/
def atoi (cs : List Char) : Int :=
  let cs := cs.dropWhile Char.isWhitespace
  match cs with
  | '-' :: r => -(atoiDigits r 0 : Int)
  | '+' :: r => (atoiDigits r 0 : Int)
  | _ => (atoiDigits cs 0 : Int)

/-- Conversion of the `atoi` result to the `uint16_t` variable `serverPort`:
reduction modulo 2^16, which C++ defines for unsigned targets. -/
def toUInt16 (z : Int) : Nat := (z % 65536).toNat

/-! ## The tick (networkUpdate) and the rest of the API -/

/-- The environment a single `networkUpdate` call observes: the millisecond
clock, the WiFi association status, at most one inbound discovery datagram
(its bytes as read into the 64-byte buffer, and its sender's IP already
formatted as a dotted quad), and the batch of WebSocket events the pump
delivers in the phases that call `webSocket.loop()`. -/
structure TickInput where
  now : Nat
  wifiUp : Bool
  udpPacket : Option (List Char × String)
  wsEvents : List WsEvent

/-- `networkUpdate` from network.cpp: the per-phase non-blocking poll.
Returns the successor state and the frames sent during the tick. -/
def networkUpdate (s : NetState) (input : TickInput) : NetState × List OutMsg :=
  match s.connState with
  | ConnectionState.BOOT =>
      ({ s with connState := ConnectionState.WIFI_CONNECTING }, [])
  | ConnectionState.PLAYER_SELECT => (s, [])
  | ConnectionState.WIFI_CONNECTING =>
      if input.wifiUp then
        if s.serverHost ≠ "" then
          ({ s with connState := ConnectionState.WS_CONNECTING }, [])
        else
          ({ s with lastDiscoveryBroadcast := 0
                  , connState := ConnectionState.DISCOVERING }, [])
      else (s, [])
  | ConnectionState.DISCOVERING =>
      let s1 := if DISCOVERY_TIMEOUT_MS ≤ input.now - s.lastDiscoveryBroadcast
                then { s with lastDiscoveryBroadcast := input.now } else s
      match input.udpPacket with
      | some pkt =>
          let buf := pkt.1.take 63
          if DISCOVERY_RESP.toList.isPrefixOf buf then
            let port0 := toUInt16 (atoi (buf.drop DISCOVERY_RESP.toList.length))
            let port1 := if port0 = 0 then WS_PORT else port0
            ({ s1 with serverPort := port1, serverHost := pkt.2
                     , connState := ConnectionState.WS_CONNECTING }, [])
          else (s1, [])
      | none => (s1, [])
  | ConnectionState.WS_CONNECTING =>
      let s1 := wsLoop s input.wsEvents
      if s1.wsConnected && !s1.gameJoined then
        ({ s1 with connState := ConnectionState.JOINING },
         [sendMessage ClientMsg.JOIN [("playerId", s1.playerId), ("source", "terminal")]])
      else (s1, [])
  | ConnectionState.JOINING =>
      let s1 := wsLoop s input.wsEvents
      if s1.gameJoined then
        ({ s1 with connState := ConnectionState.CONNECTED }, [])
      else if !s1.wsConnected then
        ({ s1 with connState := ConnectionState.RECONNECTING }, [])
      else (s1, [])
  | ConnectionState.CONNECTED =>
      let s1 := wsLoop s input.wsEvents
      if !s1.wsConnected then
        ({ s1 with gameJoined := false, connState := ConnectionState.RECONNECTING }, [])
      else (s1, [])
  | ConnectionState.RECONNECTING =>
      let s1 := wsLoop s input.wsEvents
      if !input.wifiUp then
        ({ s1 with connState := ConnectionState.WIFI_CONNECTING }, [])
      else if s1.wsConnected then
        ({ s1 with connState := ConnectionState.JOINING },
         [sendMessage ClientMsg.REJOIN [("playerId", s1.playerId), ("source", "terminal")]])
      else (s1, [])
  | ConnectionState.ERROR => (wsLoop s input.wsEvents, [])

/-- `networkRetryJoin` from network.cpp: only meaningful in `ERROR`; clears
the error message, then resends a join (note: with a `playerId`-only payload)
if the stream still reports connected, else falls back to `RECONNECTING`. -/
def networkRetryJoin (s : NetState) : NetState × List OutMsg :=
  if s.connState = ConnectionState.ERROR then
    let s1 := { s with lastError := "" }
    if s1.wsConnected then
      ({ s1 with connState := ConnectionState.JOINING },
       [sendMessage ClientMsg.JOIN [("playerId", s1.playerId)]])
    else
      ({ s1 with connState := ConnectionState.RECONNECTING }, [])
  else (s, [])

/-- `networkIsConnected` from network.cpp:
`connState == CONNECTED && wsConnected && gameJoined`. -/
def networkIsConnected (s : NetState) : Bool :=
  decide (s.connState = ConnectionState.CONNECTED) && s.wsConnected && s.gameJoined

/-- `networkInit` from network.cpp: starts WiFi association and enters
`WIFI_CONNECTING`. -/
def networkInit (s : NetState) : NetState :=
  { s with connState := ConnectionState.WIFI_CONNECTING }

/-- `networkSetPlayerId` from network.cpp: formats the `uint8_t` player number
in decimal into the identity buffer. -/
def networkSetPlayerId (s : NetState) (playerNum : Nat) : NetState :=
  { s with playerId := toString (playerNum % 256) }

/-- The API surface through which the rest of the firmware drives the session
machine, together with what each call sends. The command senders are gated on
`networkIsConnected` in the source and never mutate the session state. -/
inductive ApiCall where
  | update (input : TickInput)
  | retryJoin
  | init
  | setPlayerId (n : Nat)
  | sendSelectUp
  | sendSelectDown
  | sendConfirm
  | sendAbstain
  | sendUseItem (itemId : String)

/-- One API call: successor state and frames sent. -/
def apiStep (s : NetState) : ApiCall → NetState × List OutMsg
  | ApiCall.update input => networkUpdate s input
  | ApiCall.retryJoin => networkRetryJoin s
  | ApiCall.init => (networkInit s, [])
  | ApiCall.setPlayerId n => (networkSetPlayerId s n, [])
  | ApiCall.sendSelectUp =>
      (s, if networkIsConnected s then [sendMessage ClientMsg.SELECT_UP []] else [])
  | ApiCall.sendSelectDown =>
      (s, if networkIsConnected s then [sendMessage ClientMsg.SELECT_DOWN []] else [])
  | ApiCall.sendConfirm =>
      (s, if networkIsConnected s then [sendMessage ClientMsg.CONFIRM []] else [])
  | ApiCall.sendAbstain =>
      (s, if networkIsConnected s then [sendMessage ClientMsg.ABSTAIN []] else [])
  | ApiCall.sendUseItem itemId =>
      (s, if networkIsConnected s then
            [sendMessage ClientMsg.USE_ITEM [("itemId", itemId)]] else [])

/-- The states the session machine can be in between API calls, starting from
the static initializers, with every tick's event batch well-formed per the
transport's guarantees. The command senders are omitted as they do not change
the state. -/
inductive Reachable : NetState → Prop where
  | refl : Reachable initialState
  | tick {s : NetState} (h : Reachable s) (input : TickInput)
      (hwf : wfBatch s.wsConnected input.wsEvents = true) :
      Reachable (networkUpdate s input).1
  | initStep {s : NetState} (h : Reachable s) : Reachable (networkInit s)
  | retryStep {s : NetState} (h : Reachable s) : Reachable (networkRetryJoin s).1
  | setIdStep {s : NetState} (h : Reachable s) (n : Nat) :
      Reachable (networkSetPlayerId s n)

/-! ## Basic lemmas about the event pump -/

theorem handleTextFrame_misc (s : NetState) (f : Json) :
    (handleTextFrame s f).wsConnected = s.wsConnected ∧
    (handleTextFrame s f).serverHost = s.serverHost ∧
    (handleTextFrame s f).serverPort = s.serverPort ∧
    (handleTextFrame s f).playerId = s.playerId ∧
    (handleTextFrame s f).lastDiscoveryBroadcast = s.lastDiscoveryBroadcast := by
  unfold handleTextFrame
  cases Json.get f "type" <;> simp
  split_ifs <;> try simp
  split <;> simp

theorem handleTextFrame_gameJoined_mono (s : NetState) (f : Json)
    (h : s.gameJoined = true) : (handleTextFrame s f).gameJoined = true := by
  unfold handleTextFrame
  cases Json.get f "type" <;> simp [h]
  split_ifs <;> try simp [h]
  split <;> simp [h]

theorem handleTextFrame_connState (s : NetState) (f : Json) :
    (handleTextFrame s f).connState = s.connState ∨
    (s.connState = ConnectionState.JOINING ∧
      (handleTextFrame s f).connState = ConnectionState.ERROR) := by
  unfold handleTextFrame
  cases Json.get f "type" <;> simp
  split_ifs with h1 h2 h3 h4 <;> try simp [*]
  split <;> simp

theorem onWebSocketEvent_misc (s : NetState) (ev : WsEvent) :
    (onWebSocketEvent s ev).serverHost = s.serverHost ∧
    (onWebSocketEvent s ev).serverPort = s.serverPort ∧
    (onWebSocketEvent s ev).playerId = s.playerId ∧
    (onWebSocketEvent s ev).lastDiscoveryBroadcast = s.lastDiscoveryBroadcast := by
  cases ev <;> simp [onWebSocketEvent]
  exact (handleTextFrame_misc s _).2

theorem onWebSocketEvent_connState (s : NetState) (ev : WsEvent) :
    (onWebSocketEvent s ev).connState = s.connState ∨
    (s.connState = ConnectionState.JOINING ∧
      (onWebSocketEvent s ev).connState = ConnectionState.ERROR) := by
  cases ev <;> simp [onWebSocketEvent]
  exact handleTextFrame_connState s _

theorem wsLoop_misc (evts : List WsEvent) (s : NetState) :
    (wsLoop s evts).serverHost = s.serverHost ∧
    (wsLoop s evts).serverPort = s.serverPort ∧
    (wsLoop s evts).playerId = s.playerId ∧
    (wsLoop s evts).lastDiscoveryBroadcast = s.lastDiscoveryBroadcast := by
  induction evts generalizing s with
  | nil => simp [wsLoop]
  | cons ev r ih =>
      have h1 := onWebSocketEvent_misc s ev
      have h2 := ih (onWebSocketEvent s ev)
      simp only [wsLoop, List.foldl_cons] at h2 ⊢
      exact ⟨h2.1.trans h1.1, h2.2.1.trans h1.2.1, h2.2.2.1.trans h1.2.2.1,
             h2.2.2.2.trans h1.2.2.2⟩

theorem wsLoop_connState_ne (evts : List WsEvent) (s : NetState)
    (h : s.connState ≠ ConnectionState.JOINING) :
    (wsLoop s evts).connState = s.connState := by
  induction evts generalizing s with
  | nil => simp [wsLoop]
  | cons ev r ih =>
      have h1 : (onWebSocketEvent s ev).connState = s.connState := by
        rcases onWebSocketEvent_connState s ev with h2 | ⟨h2, _⟩
        · exact h2
        · exact absurd h2 h
      have h2 := ih (onWebSocketEvent s ev) (by rw [h1]; exact h)
      simp only [wsLoop, List.foldl_cons] at h2 ⊢
      exact h2.trans h1

theorem wsLoop_connState_cases (evts : List WsEvent) (s : NetState) :
    (wsLoop s evts).connState = s.connState ∨
    (wsLoop s evts).connState = ConnectionState.ERROR := by
  induction evts generalizing s with
  | nil => simp [wsLoop]
  | cons ev r ih =>
      have h2 := ih (onWebSocketEvent s ev)
      simp only [wsLoop, List.foldl_cons] at h2 ⊢
      rcases h2 with h2 | h2
      · rw [h2]
        rcases onWebSocketEvent_connState s ev with h3 | ⟨_, h3⟩
        · exact Or.inl h3
        · exact Or.inr h3
      · exact Or.inr h2

/-- The flag invariant through one pump call with a well-formed batch:
`gameJoined` still implies `wsConnected` afterwards, and a session that was
connected and joined and is still connected afterwards is still joined. -/
theorem wsLoop_wf (evts : List WsEvent) (s : NetState)
    (hwf : wfBatch s.wsConnected evts = true)
    (hG : s.gameJoined = true → s.wsConnected = true) :
    ((wsLoop s evts).gameJoined = true → (wsLoop s evts).wsConnected = true) ∧
    (s.wsConnected = true → s.gameJoined = true →
      (wsLoop s evts).wsConnected = true → (wsLoop s evts).gameJoined = true) := by
  induction evts generalizing s with
  | nil => exact ⟨by simpa [wsLoop] using hG, fun _ hgj _ => by simpa [wsLoop] using hgj⟩
  | cons ev r ih =>
      simp only [wsLoop, List.foldl_cons] at ih ⊢
      cases ev with
      | connected =>
          simp only [wfBatch, Bool.and_eq_true, Bool.not_eq_true'] at hwf
          obtain ⟨hws, hwf⟩ := hwf
          have hgj : s.gameJoined = false := by
            cases hg : s.gameJoined
            · rfl
            · exact absurd (hG hg) (by simp [hws])
          have := ih { s with wsConnected := true } (by simpa using hwf) (by simp)
          exact ⟨this.1, fun hws2 => by rw [hws2] at hws; cases hws⟩
      | disconnected =>
          simp only [wfBatch, Bool.and_eq_true] at hwf
          obtain ⟨hws, hr⟩ := hwf
          cases r with
          | cons a l => simp [List.isEmpty] at hr
          | nil =>
              constructor
              · intro h; simp [onWebSocketEvent] at h
              · intro _ _ h; simp [onWebSocketEvent] at h
      | text f =>
          simp only [wfBatch, Bool.and_eq_true] at hwf
          obtain ⟨hws, hwf2⟩ := hwf
          have hpres : (onWebSocketEvent s (WsEvent.text f)).wsConnected = s.wsConnected :=
            (handleTextFrame_misc s f).1
          have hih := ih (onWebSocketEvent s (WsEvent.text f))
            (by rw [hpres]; exact hwf2)
            (by intro _; rw [hpres]; exact hws)
          refine ⟨hih.1, fun hws2 hgj2 hws3 => hih.2 (by rw [hpres]; exact hws2) ?_ hws3⟩
          exact handleTextFrame_gameJoined_mono s f hgj2
      | bin =>
          exact ih s (by simpa [wfBatch] using hwf) hG
      | errorEvent =>
          exact ih s (by simpa [wfBatch] using hwf) hG
      | ping =>
          exact ih s (by simpa [wfBatch] using hwf) hG
      | pong =>
          exact ih s (by simpa [wfBatch] using hwf) hG

/-! ## The session invariant -/

/-- The inductive invariant of the session machine: `gameJoined` implies
`wsConnected`, and the `CONNECTED` phase is only held with the stream
connected and the join handshake completed. -/
def SessionInv (s : NetState) : Prop :=
  (s.gameJoined = true → s.wsConnected = true) ∧
  (s.connState = ConnectionState.CONNECTED →
    s.wsConnected = true ∧ s.gameJoined = true)

theorem sessionInv_of_flags {s t : NetState}
    (hG : s.gameJoined = true → s.wsConnected = true)
    (hg : t.gameJoined = s.gameJoined) (hw : t.wsConnected = s.wsConnected)
    (hne : t.connState ≠ ConnectionState.CONNECTED) : SessionInv t := by
  refine ⟨?_, fun h => absurd h hne⟩
  intro h
  rw [hg] at h
  rw [hw]
  exact hG h

theorem sessionInv_update {s : NetState} (hInv : SessionInv s) (input : TickInput)
    (hwf : wfBatch s.wsConnected input.wsEvents = true) :
    SessionInv (networkUpdate s input).1 := by
  obtain ⟨hG, hJ⟩ := hInv
  have hwl := wsLoop_wf input.wsEvents s hwf hG
  cases hc : s.connState with
  | BOOT =>
      simp only [networkUpdate, hc]
      exact sessionInv_of_flags hG (by simp) (by simp) (by simp)
  | PLAYER_SELECT =>
      simp only [networkUpdate, hc]
      exact sessionInv_of_flags hG rfl rfl (by rw [hc]; simp)
  | WIFI_CONNECTING =>
      simp only [networkUpdate, hc]
      split_ifs <;> exact sessionInv_of_flags hG (by simp) (by simp) (by simp [hc])
  | DISCOVERING =>
      simp only [networkUpdate, hc]
      cases input.udpPacket <;> dsimp only <;> split_ifs <;>
        exact sessionInv_of_flags hG (by simp) (by simp) (by simp [hc])
  | WS_CONNECTING =>
      have hne : s.connState ≠ ConnectionState.JOINING := by simp [hc]
      have hcs := wsLoop_connState_ne input.wsEvents s hne
      simp only [networkUpdate, hc]
      split
      · exact sessionInv_of_flags hwl.1 (by simp) (by simp) (by simp)
      · exact sessionInv_of_flags hwl.1 rfl rfl (by rw [hcs, hc]; simp)
  | JOINING =>
      simp only [networkUpdate, hc]
      split
      · rename_i hgj
        refine ⟨?_, fun _ => ⟨?_, ?_⟩⟩
        · intro h
          simp only at h ⊢
          exact hwl.1 h
        · simpa using hwl.1 hgj
        · simpa using hgj
      · split
        · exact sessionInv_of_flags hwl.1 (by simp) (by simp) (by simp)
        · refine sessionInv_of_flags hwl.1 rfl rfl ?_
          rcases wsLoop_connState_cases input.wsEvents s with h2 | h2 <;> rw [h2]
          · rw [hc]; simp
          · simp
  | CONNECTED =>
      have hne : s.connState ≠ ConnectionState.JOINING := by simp [hc]
      have hcs := wsLoop_connState_ne input.wsEvents s hne
      obtain ⟨hws0, hgj0⟩ := hJ hc
      simp only [networkUpdate, hc]
      split
      · exact ⟨by intro h; simp at h, by simp⟩
      · rename_i hws1
        have hws2 : (wsLoop s input.wsEvents).wsConnected = true := by
          simpa using hws1
        exact ⟨fun _ => hws2, fun _ => ⟨hws2, hwl.2 hws0 hgj0 hws2⟩⟩
  | RECONNECTING =>
      have hne : s.connState ≠ ConnectionState.JOINING := by simp [hc]
      have hcs := wsLoop_connState_ne input.wsEvents s hne
      simp only [networkUpdate, hc]
      split
      · exact sessionInv_of_flags hwl.1 (by simp) (by simp) (by simp)
      · split
        · exact sessionInv_of_flags hwl.1 (by simp) (by simp) (by simp)
        · exact sessionInv_of_flags hwl.1 rfl rfl (by rw [hcs, hc]; simp)
  | ERROR =>
      have hne : s.connState ≠ ConnectionState.JOINING := by simp [hc]
      have hcs := wsLoop_connState_ne input.wsEvents s hne
      simp only [networkUpdate, hc]
      exact sessionInv_of_flags hwl.1 rfl rfl (by rw [hcs, hc]; simp)

theorem sessionInv_retry {s : NetState} (hInv : SessionInv s) :
    SessionInv (networkRetryJoin s).1 := by
  obtain ⟨hG, hJ⟩ := hInv
  simp only [networkRetryJoin]
  split_ifs <;>
    first
      | exact ⟨hG, hJ⟩
      | exact sessionInv_of_flags hG (by simp) (by simp) (by simp)

theorem sessionInv_init {s : NetState} (hInv : SessionInv s) :
    SessionInv (networkInit s) :=
  sessionInv_of_flags hInv.1 (by simp [networkInit]) (by simp [networkInit])
    (by simp [networkInit])

theorem sessionInv_setId {s : NetState} (hInv : SessionInv s) (n : Nat) :
    SessionInv (networkSetPlayerId s n) :=
  ⟨fun h => hInv.1 h, fun h => hInv.2 h⟩

theorem reachable_inv {s : NetState} (h : Reachable s) : SessionInv s := by
  induction h with
  | refl => exact ⟨by simp [initialState], by simp [initialState]⟩
  | tick h input hwf ih => exact sessionInv_update ih input hwf
  | initStep h ih => exact sessionInv_init ih
  | retryStep h ih => exact sessionInv_retry ih
  | setIdStep h n ih => exact sessionInv_setId ih n

/-! ## Inbound frame builders used in concrete runs -/

/-- A `{"type": "welcome"}` frame. -/
def welcomeFrame : Json := Json.obj [("type", Json.str "welcome")]

/-- An `{"type": "error", "payload": {"message": m}}` frame. -/
def errorFrame (m : String) : Json :=
  Json.obj [("type", Json.str "error"), ("payload", Json.obj [("message", Json.str m)])]

/-! ## A concrete run: boot, discover, connect, join, welcome -/

def chainS1 : NetState := networkInit initialState

def chainIn2 : TickInput := { now := 0, wifiUp := true, udpPacket := none, wsEvents := [] }

def chainS2 : NetState := (networkUpdate chainS1 chainIn2).1

def chainIn3 : TickInput :=
  { now := 0, wifiUp := true
  , udpPacket := some ("MURDERHOUSE_SERVER:9001".toList, "192.168.0.50")
  , wsEvents := [] }

def chainS3 : NetState := (networkUpdate chainS2 chainIn3).1

def chainIn4 : TickInput :=
  { now := 0, wifiUp := true, udpPacket := none, wsEvents := [WsEvent.connected] }

def chainS4 : NetState := (networkUpdate chainS3 chainIn4).1

def chainIn5 : TickInput :=
  { now := 0, wifiUp := true, udpPacket := none, wsEvents := [WsEvent.text welcomeFrame] }

def chainS5 : NetState := (networkUpdate chainS4 chainIn5).1

theorem chainS4_reachable : Reachable chainS4 :=
  Reachable.tick
    (Reachable.tick
      (Reachable.tick (Reachable.initStep Reachable.refl) chainIn2 (by decide))
      chainIn3 (by decide))
    chainIn4 (by decide)

theorem chainS5_reachable : Reachable chainS5 :=
  Reachable.tick chainS4_reachable chainIn5 (by decide)

/-! ## A concrete run into the ERROR phase -/

def chainInErr : TickInput :=
  { now := 0, wifiUp := true, udpPacket := none
  , wsEvents := [WsEvent.text (errorFrame "name taken")] }

def chainSErr : NetState := (networkUpdate chainS4 chainInErr).1

theorem chainSErr_reachable : Reachable chainSErr :=
  Reachable.tick chainS4_reachable chainInErr (by decide)

/-! ## C1 -/

/-- C1: for every reachable state of the session state machine,
`networkIsConnected()` returns true if and only if the current connection
phase is `CONNECTED`. (The source also conjoins `wsConnected` and
`gameJoined`, but the session invariant shows both hold whenever the phase is
`CONNECTED`, so the equivalence claimed by the spec is exact on reachable
states.) -/
theorem C1_isConnected_iff {s : NetState} (h : Reachable s) :
    networkIsConnected s = true ↔ s.connState = ConnectionState.CONNECTED := by
  obtain ⟨hG, hJ⟩ := reachable_inv h
  unfold networkIsConnected
  constructor
  · intro hx
    simp only [Bool.and_eq_true, decide_eq_true_eq] at hx
    exact hx.1.1
  · intro hx
    obtain ⟨hw, hg⟩ := hJ hx
    simp [hx, hw, hg]

/-- Witness for C1: the concrete run reaching the `CONNECTED` phase, where
`networkIsConnected` indeed reports true. -/
theorem C1_isConnected_iff_witness :
    networkIsConnected chainS5 = true ∧
    chainS5.connState = ConnectionState.CONNECTED :=
  ⟨(C1_isConnected_iff chainS5_reachable).mpr (by decide), by decide⟩

/-! ## C3 -/

theorem isConnected_ws {s : NetState} (h : networkIsConnected s = true) :
    s.wsConnected = true := by
  unfold networkIsConnected at h
  simp only [Bool.and_eq_true] at h
  exact h.1.2

/-- C3: a join or rejoin frame is only ever sent in a step where the stream
reports itself connected. After all three send sites (initial connect,
reconnect, retry) no further events run in the same step, so the post-step
`wsConnected` is exactly the flag's value at the moment of sending. -/
theorem C3_join_requires_stream (s : NetState) (c : ApiCall) (m : OutMsg)
    (hm : m ∈ (apiStep s c).2)
    (ht : m.type = ClientMsg.JOIN ∨ m.type = ClientMsg.REJOIN) :
    (apiStep s c).1.wsConnected = true := by
  cases c with
  | update input =>
      simp only [apiStep] at hm ⊢
      cases hc : s.connState <;> simp only [networkUpdate, hc] at hm ⊢
      case BOOT => simp at hm
      case PLAYER_SELECT => simp at hm
      case WIFI_CONNECTING => split_ifs at hm ⊢ <;> simp at hm
      case DISCOVERING =>
          cases hu : input.udpPacket <;> simp only [hu] at hm ⊢ <;>
            split_ifs at hm ⊢ <;> simp at hm
      case WS_CONNECTING =>
          split_ifs at hm ⊢ with hcond
          · simp only [Bool.and_eq_true] at hcond
            simpa using hcond.1
          · simp at hm
      case JOINING => split_ifs at hm ⊢ <;> simp at hm
      case CONNECTED => split_ifs at hm ⊢ <;> simp at hm
      case RECONNECTING =>
          split_ifs at hm ⊢ with h1 h2
          · simp at hm
          · simpa using h2
          · simp at hm
      case ERROR => simp at hm
  | retryJoin =>
      simp only [apiStep, networkRetryJoin] at hm ⊢
      split_ifs at hm ⊢ with h1 h2
      · simpa using h2
      · simp at hm
      · simp at hm
  | init => simp [apiStep] at hm
  | setPlayerId n => simp [apiStep] at hm
  | sendSelectUp =>
      cases hni : networkIsConnected s
      · simp [apiStep, hni] at hm
      · exact isConnected_ws hni
  | sendSelectDown =>
      cases hni : networkIsConnected s
      · simp [apiStep, hni] at hm
      · exact isConnected_ws hni
  | sendConfirm =>
      cases hni : networkIsConnected s
      · simp [apiStep, hni] at hm
      · exact isConnected_ws hni
  | sendAbstain =>
      cases hni : networkIsConnected s
      · simp [apiStep, hni] at hm
      · exact isConnected_ws hni
  | sendUseItem itemId =>
      cases hni : networkIsConnected s
      · simp [apiStep, hni] at hm
      · exact isConnected_ws hni

def mJoin : OutMsg :=
  { type := "join", payload := [("playerId", "1"), ("source", "terminal")] }

/-- Witness for C3: the initial join frame of the concrete run, sent in a step
that ends with the stream connected. -/
theorem C3_join_requires_stream_witness :
    (mJoin ∈ (apiStep chainS3 (ApiCall.update chainIn4)).2 ∧
      (mJoin.type = ClientMsg.JOIN ∨ mJoin.type = ClientMsg.REJOIN)) ∧
    (apiStep chainS3 (ApiCall.update chainIn4)).1.wsConnected = true :=
  ⟨⟨by decide, Or.inl (by decide)⟩,
   C3_join_requires_stream chainS3 (ApiCall.update chainIn4) mJoin (by decide)
     (Or.inl (by decide))⟩

/-! ## C2 -/

/-- C2 (amended): every join and rejoin frame carries the configured identity
as `playerId`; the frames sent on the initial stream connect and on reconnect
additionally carry `source: "terminal"`, while the join frame sent by
`retry()` carries only `playerId` and no `source` member. -/
theorem C2_join_payload (s : NetState) (c : ApiCall) (m : OutMsg)
    (hm : m ∈ (apiStep s c).2)
    (ht : m.type = ClientMsg.JOIN ∨ m.type = ClientMsg.REJOIN) :
    (c = ApiCall.retryJoin → m.payload = [("playerId", s.playerId)]) ∧
    (c ≠ ApiCall.retryJoin →
      m.payload = [("playerId", s.playerId), ("source", "terminal")]) := by
  cases c with
  | update input =>
      refine ⟨fun h => absurd h (by simp), fun _ => ?_⟩
      have hpid := (wsLoop_misc input.wsEvents s).2.2.1
      simp only [apiStep] at hm
      cases hc : s.connState <;> simp only [networkUpdate, hc] at hm
      case BOOT => simp at hm
      case PLAYER_SELECT => simp at hm
      case WIFI_CONNECTING => split_ifs at hm <;> simp at hm
      case DISCOVERING =>
          cases hu : input.udpPacket <;> simp only [hu] at hm
          · simp at hm
          · split_ifs at hm <;> simp at hm
      case WS_CONNECTING =>
          split_ifs at hm
          · simp only [List.mem_singleton] at hm
            subst hm
            simp [sendMessage, hpid]
          · simp at hm
      case JOINING => split_ifs at hm <;> simp at hm
      case CONNECTED => split_ifs at hm <;> simp at hm
      case RECONNECTING =>
          split_ifs at hm
          · simp at hm
          · simp only [List.mem_singleton] at hm
            subst hm
            simp [sendMessage, hpid]
          · simp at hm
      case ERROR => simp at hm
  | retryJoin =>
      refine ⟨fun _ => ?_, fun h => absurd rfl h⟩
      simp only [apiStep, networkRetryJoin] at hm
      split_ifs at hm
      · simp only [List.mem_singleton] at hm
        subst hm
        simp [sendMessage]
      · simp at hm
      · simp at hm
  | init => simp [apiStep] at hm
  | setPlayerId n => simp [apiStep] at hm
  | sendSelectUp =>
      cases hni : networkIsConnected s <;> simp [apiStep, hni] at hm
      subst hm
      rcases ht with h | h <;>
        simp [sendMessage, ClientMsg.SELECT_UP, ClientMsg.SELECT_DOWN, ClientMsg.CONFIRM,
              ClientMsg.ABSTAIN, ClientMsg.USE_ITEM, ClientMsg.JOIN, ClientMsg.REJOIN] at h
  | sendSelectDown =>
      cases hni : networkIsConnected s <;> simp [apiStep, hni] at hm
      subst hm
      rcases ht with h | h <;>
        simp [sendMessage, ClientMsg.SELECT_UP, ClientMsg.SELECT_DOWN, ClientMsg.CONFIRM,
              ClientMsg.ABSTAIN, ClientMsg.USE_ITEM, ClientMsg.JOIN, ClientMsg.REJOIN] at h
  | sendConfirm =>
      cases hni : networkIsConnected s <;> simp [apiStep, hni] at hm
      subst hm
      rcases ht with h | h <;>
        simp [sendMessage, ClientMsg.SELECT_UP, ClientMsg.SELECT_DOWN, ClientMsg.CONFIRM,
              ClientMsg.ABSTAIN, ClientMsg.USE_ITEM, ClientMsg.JOIN, ClientMsg.REJOIN] at h
  | sendAbstain =>
      cases hni : networkIsConnected s <;> simp [apiStep, hni] at hm
      subst hm
      rcases ht with h | h <;>
        simp [sendMessage, ClientMsg.SELECT_UP, ClientMsg.SELECT_DOWN, ClientMsg.CONFIRM,
              ClientMsg.ABSTAIN, ClientMsg.USE_ITEM, ClientMsg.JOIN, ClientMsg.REJOIN] at h
  | sendUseItem itemId =>
      cases hni : networkIsConnected s <;> simp [apiStep, hni] at hm
      subst hm
      rcases ht with h | h <;>
        simp [sendMessage, ClientMsg.SELECT_UP, ClientMsg.SELECT_DOWN, ClientMsg.CONFIRM,
              ClientMsg.ABSTAIN, ClientMsg.USE_ITEM, ClientMsg.JOIN, ClientMsg.REJOIN] at h

/-- Counterexample for C2 as stated: in the reachable `ERROR` state of the
concrete run, `retry()` sends a join frame whose payload has no
`source: "terminal"` member. -/
theorem C2_counterexample :
    Reachable chainSErr ∧
    (apiStep chainSErr ApiCall.retryJoin).2 =
      [{ type := "join", payload := [("playerId", "1")] }] ∧
    ("source", "terminal") ∉
      ({ type := "join", payload := [("playerId", "1")] } : OutMsg).payload :=
  ⟨chainSErr_reachable, by decide, by decide⟩

def mRetryJoin : OutMsg := { type := "join", payload := [("playerId", "1")] }

/-- Witness for C2 (amended), at the retry send site of the concrete run. -/
theorem C2_join_payload_witness :
    (mRetryJoin ∈ (apiStep chainSErr ApiCall.retryJoin).2 ∧
      (mRetryJoin.type = ClientMsg.JOIN ∨ mRetryJoin.type = ClientMsg.REJOIN)) ∧
    ((ApiCall.retryJoin = ApiCall.retryJoin →
        mRetryJoin.payload = [("playerId", chainSErr.playerId)]) ∧
     (ApiCall.retryJoin ≠ ApiCall.retryJoin →
        mRetryJoin.payload =
          [("playerId", chainSErr.playerId), ("source", "terminal")])) :=
  ⟨⟨by decide, Or.inl (by decide)⟩,
   C2_join_payload chainSErr ApiCall.retryJoin mRetryJoin (by decide)
     (Or.inl (by decide))⟩

/-! ## C4 -/

/-- The error-frame handler reduces to recording the truncated message and,
from `JOINING`, entering `ERROR`. -/
theorem handleTextFrame_errorFrame (s : NetState) (m : String) :
    handleTextFrame s (errorFrame m) =
      (if s.connState = ConnectionState.JOINING then
        { s with lastError := truncErr m, connState := ConnectionState.ERROR }
      else { s with lastError := truncErr m }) := by
  simp [handleTextFrame, errorFrame, Json.get, Json.strOr, ServerMsg.WELCOME,
        ServerMsg.ERROR, ServerMsg.PLAYER_STATE, List.find?]

/-- C4 (amended): from `JOINING` (join not yet acknowledged, stream still
connected), an inbound error frame with message `m` moves the phase to
`ERROR` and sets `LastError` to `m` truncated to the 127-character error
buffer — equal to `m` itself whenever `m` has at most 127 characters. -/
theorem C4_error_while_joining (s : NetState) (m : String) (input : TickInput)
    (h1 : s.connState = ConnectionState.JOINING)
    (h2 : s.gameJoined = false) (h3 : s.wsConnected = true)
    (hev : input.wsEvents = [WsEvent.text (errorFrame m)]) :
    (networkUpdate s input).1.connState = ConnectionState.ERROR ∧
    (networkUpdate s input).1.lastError = truncErr m := by
  have hstep : wsLoop s input.wsEvents =
      { s with lastError := truncErr m, connState := ConnectionState.ERROR } := by
    rw [hev]
    show onWebSocketEvent s (WsEvent.text (errorFrame m)) = _
    rw [show onWebSocketEvent s (WsEvent.text (errorFrame m)) =
          handleTextFrame s (errorFrame m) from rfl,
        handleTextFrame_errorFrame, if_pos h1]
  simp [networkUpdate, h1, hstep, h2, h3]

/-- A 128-character message, one character longer than the error buffer
keeps. -/
def longMsg : String := String.mk (List.replicate 128 'x')

def chainInErrLong : TickInput :=
  { now := 0, wifiUp := true, udpPacket := none
  , wsEvents := [WsEvent.text (errorFrame longMsg)] }

/-- Counterexample for C4 as stated: in the reachable `JOINING` state, an
error frame with a 128-character message moves the phase to `ERROR` but
records a `LastError` different from the message (the 128-byte buffer keeps
only the first 127 characters). -/
theorem C4_counterexample :
    (networkUpdate chainS4 chainInErrLong).1.connState = ConnectionState.ERROR ∧
    (networkUpdate chainS4 chainInErrLong).1.lastError ≠ longMsg := by decide

/-- Witness for C4 (amended): the spec's own instance `m = "name taken"`,
where the truncation is the identity. -/
theorem C4_error_while_joining_witness :
    (chainS4.connState = ConnectionState.JOINING ∧ chainS4.gameJoined = false ∧
      chainS4.wsConnected = true ∧
      chainInErr.wsEvents = [WsEvent.text (errorFrame "name taken")]) ∧
    ((networkUpdate chainS4 chainInErr).1.connState = ConnectionState.ERROR ∧
      (networkUpdate chainS4 chainInErr).1.lastError = truncErr "name taken") ∧
    truncErr "name taken" = "name taken" :=
  ⟨⟨by decide, by decide, by decide, rfl⟩,
   C4_error_while_joining chainS4 "name taken" chainInErr (by decide) (by decide)
     (by decide) rfl,
   by decide⟩

/-! ## C5 -/

/-- C5: calling `retry()` in the `ERROR` phase with the stream still
connected clears `LastError` to the empty string, sends exactly one frame,
of type `join`, and moves the phase to `JOINING`. -/
theorem C5_retry_from_error (s : NetState)
    (h1 : s.connState = ConnectionState.ERROR) (h2 : s.wsConnected = true) :
    (networkRetryJoin s).1.lastError = "" ∧
    (networkRetryJoin s).1.connState = ConnectionState.JOINING ∧
    (networkRetryJoin s).2.map OutMsg.type = [ClientMsg.JOIN] := by
  simp [networkRetryJoin, h1, h2, sendMessage]

/-- Witness for C5: `retry()` in the reachable `ERROR` state of the concrete
run. -/
theorem C5_retry_from_error_witness :
    (chainSErr.connState = ConnectionState.ERROR ∧ chainSErr.wsConnected = true) ∧
    ((networkRetryJoin chainSErr).1.lastError = "" ∧
      (networkRetryJoin chainSErr).1.connState = ConnectionState.JOINING ∧
      (networkRetryJoin chainSErr).2.map OutMsg.type = [ClientMsg.JOIN]) :=
  ⟨⟨by decide, by decide⟩, C5_retry_from_error chainSErr (by decide) (by decide)⟩

/-! ## C7 -/

/-- C7: in `RECONNECTING`, with WiFi still associated and the stream
reporting reconnected after the pump, the tick sends exactly one frame, of
type `rejoin` (not `join`), and moves the phase to `JOINING`. -/
theorem C7_rejoin_on_reconnect (s : NetState) (input : TickInput)
    (h1 : s.connState = ConnectionState.RECONNECTING)
    (h2 : input.wifiUp = true)
    (h3 : (wsLoop s input.wsEvents).wsConnected = true) :
    (networkUpdate s input).1.connState = ConnectionState.JOINING ∧
    (networkUpdate s input).2.map OutMsg.type = [ClientMsg.REJOIN] ∧
    ClientMsg.REJOIN ≠ ClientMsg.JOIN := by
  refine ⟨?_, ?_, by decide⟩ <;> simp [networkUpdate, h1, h2, h3, sendMessage]

def reconnState : NetState :=
  { initialState with connState := ConnectionState.RECONNECTING }

def reconnIn : TickInput :=
  { now := 0, wifiUp := true, udpPacket := none, wsEvents := [WsEvent.connected] }

/-- Witness for C7: a reconnect event arriving in `RECONNECTING` with WiFi
up. -/
theorem C7_rejoin_on_reconnect_witness :
    (reconnState.connState = ConnectionState.RECONNECTING ∧
      reconnIn.wifiUp = true ∧
      (wsLoop reconnState reconnIn.wsEvents).wsConnected = true) ∧
    ((networkUpdate reconnState reconnIn).1.connState = ConnectionState.JOINING ∧
      (networkUpdate reconnState reconnIn).2.map OutMsg.type = [ClientMsg.REJOIN] ∧
      ClientMsg.REJOIN ≠ ClientMsg.JOIN) :=
  ⟨⟨by decide, by decide, by decide⟩,
   C7_rejoin_on_reconnect reconnState reconnIn (by decide) (by decide) (by decide)⟩

/-! ## C10 -/

/-- C10 (amended): an inbound error frame received while the phase is
anything other than `JOINING` overwrites `LastError` with the server's
message truncated to the 127-character error buffer (equal to the message
whenever it is at most 127 characters) and leaves the phase and every other
piece of session state unchanged. -/
theorem C10_error_elsewhere (s : NetState) (m : String)
    (h : s.connState ≠ ConnectionState.JOINING) :
    (onWebSocketEvent s (WsEvent.text (errorFrame m))).lastError = truncErr m ∧
    (onWebSocketEvent s (WsEvent.text (errorFrame m))).connState = s.connState ∧
    (onWebSocketEvent s (WsEvent.text (errorFrame m))).wsConnected = s.wsConnected ∧
    (onWebSocketEvent s (WsEvent.text (errorFrame m))).gameJoined = s.gameJoined ∧
    (onWebSocketEvent s (WsEvent.text (errorFrame m))).serverHost = s.serverHost ∧
    (onWebSocketEvent s (WsEvent.text (errorFrame m))).serverPort = s.serverPort ∧
    (onWebSocketEvent s (WsEvent.text (errorFrame m))).playerId = s.playerId ∧
    (onWebSocketEvent s (WsEvent.text (errorFrame m))).currentDisplayState =
      s.currentDisplayState := by
  have hh : onWebSocketEvent s (WsEvent.text (errorFrame m)) =
      { s with lastError := truncErr m } := by
    rw [show onWebSocketEvent s (WsEvent.text (errorFrame m)) =
          handleTextFrame s (errorFrame m) from rfl,
        handleTextFrame_errorFrame, if_neg h]
  rw [hh]
  simp

/-- Counterexample for C10 as stated: in the reachable `CONNECTED` state, an
error frame with a 128-character message leaves the phase alone but records a
`LastError` different from the message (truncated to 127 characters). -/
theorem C10_counterexample :
    (onWebSocketEvent chainS5 (WsEvent.text (errorFrame longMsg))).connState =
      ConnectionState.CONNECTED ∧
    (onWebSocketEvent chainS5 (WsEvent.text (errorFrame longMsg))).lastError ≠
      longMsg := by decide

/-- Witness for C10 (amended), with a short message in the `CONNECTED`
phase. -/
theorem C10_error_elsewhere_witness :
    chainS5.connState ≠ ConnectionState.JOINING ∧
    ((onWebSocketEvent chainS5 (WsEvent.text (errorFrame "oops"))).lastError =
        truncErr "oops" ∧
      (onWebSocketEvent chainS5 (WsEvent.text (errorFrame "oops"))).connState =
        chainS5.connState ∧
      (onWebSocketEvent chainS5 (WsEvent.text (errorFrame "oops"))).wsConnected =
        chainS5.wsConnected ∧
      (onWebSocketEvent chainS5 (WsEvent.text (errorFrame "oops"))).gameJoined =
        chainS5.gameJoined ∧
      (onWebSocketEvent chainS5 (WsEvent.text (errorFrame "oops"))).serverHost =
        chainS5.serverHost ∧
      (onWebSocketEvent chainS5 (WsEvent.text (errorFrame "oops"))).serverPort =
        chainS5.serverPort ∧
      (onWebSocketEvent chainS5 (WsEvent.text (errorFrame "oops"))).playerId =
        chainS5.playerId ∧
      (onWebSocketEvent chainS5 (WsEvent.text (errorFrame "oops"))).currentDisplayState =
        chainS5.currentDisplayState) :=
  ⟨by decide, C10_error_elsewhere chainS5 "oops" (by decide)⟩

/-! ## C6 -/

/-- The code's discovery-success condition on a tick's inputs: a datagram
arrived and, after the 63-byte read, begins with the expected response
prefix. -/
def discoveryHit (input : TickInput) : Bool :=
  match input.udpPacket with
  | some pkt => DISCOVERY_RESP.toList.isPrefixOf (pkt.1.take 63)
  | none => false

/-- C6: the resolved endpoint is written only by a successful discovery —
any tick that is not a discovery hit (so in particular mismatched or missing
datagrams, stream drops, and every step of a
`CONNECTED → RECONNECTING → JOINING → CONNECTED` cycle) leaves `serverHost`
and `serverPort` unchanged; from `RECONNECTING` the machine never re-enters
`DISCOVERING`; and once the endpoint is set, WiFi recovery proceeds directly
to `WS_CONNECTING`, bypassing discovery. -/
theorem C6_endpoint_stability (s : NetState) (input : TickInput) :
    ((s.connState = ConnectionState.DISCOVERING → discoveryHit input = false) →
      (networkUpdate s input).1.serverHost = s.serverHost ∧
      (networkUpdate s input).1.serverPort = s.serverPort) ∧
    (s.connState = ConnectionState.RECONNECTING →
      (networkUpdate s input).1.connState ≠ ConnectionState.DISCOVERING) ∧
    (s.connState = ConnectionState.WIFI_CONNECTING → input.wifiUp = true →
      s.serverHost ≠ "" →
      (networkUpdate s input).1.connState = ConnectionState.WS_CONNECTING) := by
  have hmisc := wsLoop_misc input.wsEvents s
  refine ⟨?_, ?_, ?_⟩
  · intro hnd
    cases hc : s.connState <;> simp only [networkUpdate, hc]
    case BOOT => simp
    case PLAYER_SELECT => simp
    case WIFI_CONNECTING => split_ifs <;> simp
    case DISCOVERING =>
        have hdh : discoveryHit input = false := hnd hc
        cases hu : input.udpPacket with
        | none => simp only [hu]; split_ifs <;> simp
        | some pkt =>
            simp only [discoveryHit, hu] at hdh
            simp only [hu, hdh]
            rw [if_neg (by simp)]
            split_ifs <;> simp
    case WS_CONNECTING => split_ifs <;> simp [hmisc.1, hmisc.2.1]
    case JOINING => split_ifs <;> simp [hmisc.1, hmisc.2.1]
    case CONNECTED => split_ifs <;> simp [hmisc.1, hmisc.2.1]
    case RECONNECTING => split_ifs <;> simp [hmisc.1, hmisc.2.1]
    case ERROR => simp [hmisc.1, hmisc.2.1]
  · intro hc
    have hcs := wsLoop_connState_ne input.wsEvents s (by simp [hc])
    simp only [networkUpdate, hc]
    split_ifs <;> simp [hcs, hc]
  · intro hc hw hh
    simp [networkUpdate, hc, hw, hh]

/-- A mismatched discovery datagram. -/
def mismatchIn : TickInput :=
  { now := 0, wifiUp := true, udpPacket := some ("HELLO".toList, "10.0.0.9")
  , wsEvents := [] }

def chainIn6 : TickInput :=
  { now := 0, wifiUp := true, udpPacket := none, wsEvents := [WsEvent.disconnected] }

def chainS6 : NetState := (networkUpdate chainS5 chainIn6).1

def chainS7 : NetState := (networkUpdate chainS6 chainIn4).1

def chainS8 : NetState := (networkUpdate chainS7 chainIn5).1

/-- Witness for C6: a mismatched datagram in the `DISCOVERING` phase leaves
the endpoint unchanged, and the concrete
`CONNECTED → RECONNECTING → JOINING → CONNECTED` cycle of the run keeps the
discovered endpoint `192.168.0.50:9001`. -/
theorem C6_endpoint_stability_witness :
    (chainS2.connState = ConnectionState.DISCOVERING ∧
      discoveryHit mismatchIn = false ∧
      (networkUpdate chainS2 mismatchIn).1.serverHost = chainS2.serverHost ∧
      (networkUpdate chainS2 mismatchIn).1.serverPort = chainS2.serverPort) ∧
    (chainS5.connState = ConnectionState.CONNECTED ∧
      chainS6.connState = ConnectionState.RECONNECTING ∧
      chainS7.connState = ConnectionState.JOINING ∧
      chainS8.connState = ConnectionState.CONNECTED ∧
      chainS8.serverHost = chainS5.serverHost ∧
      chainS8.serverPort = chainS5.serverPort ∧
      chainS5.serverHost = "192.168.0.50" ∧ chainS5.serverPort = 9001) :=
  ⟨⟨by decide, by decide,
    ((C6_endpoint_stability chainS2 mismatchIn).1 (fun _ => by decide)).1,
    ((C6_endpoint_stability chainS2 mismatchIn).1 (fun _ => by decide)).2⟩,
   by decide, by decide, by decide, by decide, by decide, by decide, by decide,
   by decide⟩

/-! ## C8 -/

theorem Json.get_eq_null_of_hasKey_eq_false {j : Json} {k : String}
    (h : Json.hasKey j k = false) : Json.get j k = Json.null := by
  cases j with
  | obj fields =>
      simp only [Json.hasKey, List.any_eq_false] at h
      have hf : fields.find? (fun p => p.1 == k) = none := by
        rw [List.find?_eq_none]
        intro x hx
        simpa using h x hx
      simp [Json.get, hf]
  | null => rfl
  | boolean b => rfl
  | num n => rfl
  | str s => rfl
  | arr items => rfl

/-- C8: parsing a `playerState` payload that carries a `display` object is
total and yields a fully populated `DisplayState`; in particular a payload
whose display omits the `leds` object yields both button LEDs `OFF`, and
absent text and style fields default to the empty string and the normal
style. -/
theorem C8_defensive_parse (payload : Json)
    (hk : Json.hasKey payload "display" = true) :
    parsePlayerState payload = some (displayFromJson (Json.get payload "display")) ∧
    (Json.hasKey (Json.get payload "display") "leds" = false →
      (displayFromJson (Json.get payload "display")).leds.yes = LedState.OFF ∧
      (displayFromJson (Json.get payload "display")).leds.no = LedState.OFF) ∧
    (Json.hasKey (Json.get (Json.get payload "display") "line2") "text" = false →
      (displayFromJson (Json.get payload "display")).line2.text = "") ∧
    (Json.hasKey (Json.get (Json.get payload "display") "line2") "style" = false →
      (displayFromJson (Json.get payload "display")).line2.style = DisplayStyle.NORMAL) ∧
    (Json.hasKey (Json.get (Json.get payload "display") "line1") "left" = false →
      (displayFromJson (Json.get payload "display")).line1.left = "") ∧
    (Json.hasKey (Json.get (Json.get payload "display") "line3") "text" = false →
      (displayFromJson (Json.get payload "display")).line3.text = "") := by
  refine ⟨by simp [parsePlayerState, hk], ?_, ?_, ?_, ?_, ?_⟩
  · intro h
    have hnull := Json.get_eq_null_of_hasKey_eq_false h
    constructor
    · simp only [displayFromJson, hnull]
      rfl
    · simp only [displayFromJson, hnull]
      rfl
  · intro h
    have hnull := Json.get_eq_null_of_hasKey_eq_false h
    simp only [displayFromJson, hnull]
    rfl
  · intro h
    have hnull := Json.get_eq_null_of_hasKey_eq_false h
    simp only [displayFromJson, hnull]
    rfl
  · intro h
    have hnull := Json.get_eq_null_of_hasKey_eq_false h
    simp only [displayFromJson, hnull]
    rfl
  · intro h
    have hnull := Json.get_eq_null_of_hasKey_eq_false h
    simp only [displayFromJson, hnull]
    rfl

/-- A `playerState` payload whose display object is empty. -/
def payloadW : Json := Json.obj [("display", Json.obj [])]

/-- Witness for C8: the empty display object defaults every field. -/
theorem C8_defensive_parse_witness :
    Json.hasKey payloadW "display" = true ∧
    (parsePlayerState payloadW = some (displayFromJson (Json.get payloadW "display")) ∧
      (Json.hasKey (Json.get payloadW "display") "leds" = false →
        (displayFromJson (Json.get payloadW "display")).leds.yes = LedState.OFF ∧
        (displayFromJson (Json.get payloadW "display")).leds.no = LedState.OFF) ∧
      (Json.hasKey (Json.get (Json.get payloadW "display") "line2") "text" = false →
        (displayFromJson (Json.get payloadW "display")).line2.text = "") ∧
      (Json.hasKey (Json.get (Json.get payloadW "display") "line2") "style" = false →
        (displayFromJson (Json.get payloadW "display")).line2.style = DisplayStyle.NORMAL) ∧
      (Json.hasKey (Json.get (Json.get payloadW "display") "line1") "left" = false →
        (displayFromJson (Json.get payloadW "display")).line1.left = "") ∧
      (Json.hasKey (Json.get (Json.get payloadW "display") "line3") "text" = false →
        (displayFromJson (Json.get payloadW "display")).line3.text = "")) :=
  ⟨by decide, C8_defensive_parse payloadW (by decide)⟩

/-! ## C9 -/

/-- C9 (amended): a datagram beginning with the response prefix resolves the
endpoint: the sender's address becomes the host, and the port becomes the C
`atoi` parse of the text after the prefix reduced modulo 2^16 (the value is
assigned to a `uint16_t`, so for instance 65536 wraps to 0), with the default
port 8080 substituted whenever the reduced value is zero — which covers parse
failure, a literal zero, and wrap-around. In particular the port equals the
parsed number whenever it lies in 1..65535. -/
theorem C9_discovery_port (s : NetState) (input : TickInput)
    (pkt rest : List Char) (ip : String) (z : Int)
    (hs : s.connState = ConnectionState.DISCOVERING)
    (hp : input.udpPacket = some (pkt, ip))
    (hlen : pkt.length ≤ 63)
    (hpre : pkt = DISCOVERY_RESP.toList ++ rest)
    (hz : atoi rest = z) :
    (networkUpdate s input).1.connState = ConnectionState.WS_CONNECTING ∧
    (networkUpdate s input).1.serverHost = ip ∧
    (networkUpdate s input).1.serverPort =
      (if (z % 65536).toNat = 0 then WS_PORT else (z % 65536).toNat) ∧
    (0 < z → z < 65536 →
      (networkUpdate s input).1.serverPort = z.toNat) := by
  have hbuf : pkt.take 63 = pkt := List.take_of_length_le hlen
  have hpref : DISCOVERY_RESP.toList.isPrefixOf pkt = true := by
    rw [hpre]
    exact List.isPrefixOf_iff_prefix.mpr (List.prefix_append _ _)
  have hdrop : pkt.drop DISCOVERY_RESP.toList.length = rest := by
    rw [hpre]
    exact List.drop_left _ _
  have key : networkUpdate s input =
      (let s1 := if DISCOVERY_TIMEOUT_MS ≤ input.now - s.lastDiscoveryBroadcast
                 then { s with lastDiscoveryBroadcast := input.now } else s
       ({ s1 with serverPort := if (z % 65536).toNat = 0 then WS_PORT
                                else (z % 65536).toNat
                , serverHost := ip
                , connState := ConnectionState.WS_CONNECTING }, [])) := by
    simp only [networkUpdate, hs, hp]
    rw [hbuf, hpref]
    simp only [eq_self_iff_true, if_true]
    rw [hdrop, hz]
    rfl
  refine ⟨?_, ?_, ?_, ?_⟩
  · rw [key]
  · rw [key]
  · rw [key]
  · intro h0 h1
    have hz2 : z % 65536 = z := Int.emod_eq_of_lt h0.le h1
    rw [key]
    show (if (z % 65536).toNat = 0 then WS_PORT else (z % 65536).toNat) = z.toNat
    rw [hz2, if_neg (by omega)]

/-- A discovery response announcing port 65536, which does not fit in the
`uint16_t` port variable. -/
def overflowIn : TickInput :=
  { now := 0, wifiUp := true
  , udpPacket := some ("MURDERHOUSE_SERVER:65536".toList, "192.168.0.77")
  , wsEvents := [] }

def discState : NetState :=
  { initialState with connState := ConnectionState.DISCOVERING }

/-- Counterexample for C9 as stated: for the response text `65536` the parse
succeeds and yields the nonzero number 65536, yet the stored port is the
fallback 8080 (the `uint16_t` assignment wraps 65536 to 0 before the
zero-check), not the number that follows the prefix. -/
theorem C9_counterexample :
    atoi ("65536".toList) = (65536 : Int) ∧ (65536 : Int) ≠ 0 ∧
    (networkUpdate discState overflowIn).1.serverPort = WS_PORT ∧
    (networkUpdate discState overflowIn).1.serverPort ≠ 65536 := by decide

/-- Witness for C9 (amended): the in-range response `9001` resolves host
`192.168.0.50` and port 9001 in the concrete run. -/
theorem C9_discovery_port_witness :
    (chainS2.connState = ConnectionState.DISCOVERING ∧
      chainIn3.udpPacket = some ("MURDERHOUSE_SERVER:9001".toList, "192.168.0.50") ∧
      ("MURDERHOUSE_SERVER:9001".toList).length ≤ 63 ∧
      "MURDERHOUSE_SERVER:9001".toList = DISCOVERY_RESP.toList ++ "9001".toList ∧
      atoi ("9001".toList) = (9001 : Int)) ∧
    ((networkUpdate chainS2 chainIn3).1.connState = ConnectionState.WS_CONNECTING ∧
      (networkUpdate chainS2 chainIn3).1.serverHost = "192.168.0.50" ∧
      (networkUpdate chainS2 chainIn3).1.serverPort =
        (if ((9001 : Int) % 65536).toNat = 0 then WS_PORT
         else ((9001 : Int) % 65536).toNat) ∧
      (0 < (9001 : Int) → (9001 : Int) < 65536 →
        (networkUpdate chainS2 chainIn3).1.serverPort = (9001 : Int).toNat)) :=
  ⟨⟨by decide, by decide, by decide, by decide, by decide⟩,
   C9_discovery_port chainS2 chainIn3 ("MURDERHOUSE_SERVER:9001".toList)
     ("9001".toList) "192.168.0.50" 9001 (by decide) (by decide) (by decide)
     (by decide) (by decide)⟩
